import Mathlib

/-!
# Verification development for the YouLearn local-Ollama study app

Shallow embedding of the app's core logic:

* JavaScript string operations (`split`, `includes`, `replace`, `trim`,
  regex fragments) over `Str := List Char`, with JavaScript semantics
  (first-occurrence `replace`, truthiness of strings = non-emptiness).
* The flashcard and quiz parsers of `src/pages/StudyDashboard.tsx`
  (`generateFlashcards`, `generateQuiz`).
* The PDF extraction pipeline of `src/utils/pdfProcessor.ts`
  (`processPDFFile`), with page outcomes and a resource-event trace, and
  the `Promise.race` timeout modelled by comparing completion times.
* The content store of `ContentProvider` (`addContent`, `updateContent`,
  `deleteContent`) and the Ollama client's `loadModels`.
-/

set_option autoImplicit false

/-- Strings are modelled as lists of characters. -/
abbrev Str := List Char

/-! ## JavaScript string primitives -/

/-- JS `String.prototype.includes`: substring test. -/
def containsSub : Str → Str → Bool
  | [], pat => pat.isEmpty
  | c :: rest, pat => List.isPrefixOf pat (c :: rest) || containsSub rest pat

/-- Fueled worker for JS `split` with a non-empty string separator.
The fuel is the length of the scanned string, which bounds the recursion
since every step consumes at least one character. -/
def splitGo (sep : Str) : Nat → Str → Str → List Str
  | _, [], acc => [acc.reverse]
  | 0, s, acc => [acc.reverse ++ s]
  | fuel + 1, c :: rest, acc =>
    if List.isPrefixOf sep (c :: rest) then
      acc.reverse :: splitGo sep fuel ((c :: rest).drop sep.length) []
    else
      splitGo sep fuel rest (c :: acc)

/-- JS `String.prototype.split` with a string separator.
`split('')` splits into single characters, as in JS. -/
def splitOnStr (s : Str) (sep : Str) : List Str :=
  match sep with
  | [] => s.map (fun c => [c])
  | _ => splitGo sep s.length s []

/-- JS `String.prototype.replace` with a *string* pattern: replaces only
the first occurrence (or returns the string unchanged when absent).
`''.replace('', r) = r`, as in JS. -/
def replaceFirst : Str → Str → Str → Str
  | [], pat, rep => if pat.isEmpty then rep else []
  | c :: rest, pat, rep =>
    if List.isPrefixOf pat (c :: rest) then rep ++ (c :: rest).drop pat.length
    else c :: replaceFirst rest pat rep

/-- JS `String.prototype.trim` (restricted to ASCII whitespace). -/
def jsTrim (s : Str) : Str :=
  ((s.dropWhile Char.isWhitespace).reverse.dropWhile Char.isWhitespace).reverse

/-- JS `String.prototype.toLowerCase`, character-wise. -/
def lowerStr (s : Str) : Str := s.map Char.toLower

/-- First match of the regex `/[A-D]/`: the first capital letter between
`'A'` and `'D'`, scanning left to right. -/
def firstAD? : Str → Option Char
  | [] => none
  | c :: rest => if 'A' ≤ c ∧ c ≤ 'D' then some c else firstAD? rest

/-- JS `Array.prototype.indexOf` worker, counting from `i`. -/
def jsIndexOfFrom (c : Char) : List Char → Int → Int
  | [], _ => -1
  | x :: xs, i => if x = c then i else jsIndexOfFrom c xs (i + 1)

/-- JS `Array.prototype.indexOf`: first index of `c`, or `-1`. -/
def jsIndexOf (l : List Char) (c : Char) : Int := jsIndexOfFrom c l 0

/-- The regex replace `/^[A-D]\)\s*/ → ''` used to strip an option label. -/
def stripOptionTag : Str → Str
  | c₁ :: c₂ :: rest =>
    if ('A' ≤ c₁ ∧ c₁ ≤ 'D') ∧ c₂ = ')' then rest.dropWhile Char.isWhitespace
    else c₁ :: c₂ :: rest
  | s => s

/-- Does `s` start (case-insensitively) with the lowercase pattern `pat`? -/
def ciStartsWith (s pat : Str) : Bool := List.isPrefixOf pat (lowerStr s)

/-- The regex replace `/explanation:\s*/i → ''`: removes the first
case-insensitive occurrence of `explanation:` plus following whitespace. -/
def stripExplanationTag : Str → Str
  | [] => []
  | c :: rest =>
    if ciStartsWith (c :: rest) ("explanation:".toList) then
      (rest.drop 11).dropWhile Char.isWhitespace
    else
      c :: stripExplanationTag rest

/-! ## Flashcard parsing (`generateFlashcards` in `StudyDashboard.tsx`) -/

structure Flashcard where
  id : Str
  front : Str
  back : Str
  difficulty : Str
deriving DecidableEq, Repr

/-- Does a line qualify for flashcard parsing?
`line.includes('Q:') && line.includes('A:')` -/
def flashcardLineOK (l : Str) : Bool :=
  containsSub l ("Q:".toList) && containsSub l ("A:".toList)

/-- One flashcard from a qualifying line, as built in the `.map` step:
`const [front, back] = line.split(' | A: ')`, then
`front.replace('Q: ', '').trim()` and `back?.trim() || ''`. -/
def mkFlashcard (cid : Str) (index : Nat) (line : Str) : Flashcard :=
  let parts := splitOnStr line (" | A: ".toList)
  let front := parts.headD []
  let back := ((parts.get? 1).map jsTrim).getD []
  { id := cid ++ "-flashcard-".toList ++ Nat.toDigits 10 index
    front := jsTrim (replaceFirst front ("Q: ".toList) [])
    back := back
    difficulty := "medium".toList }

/-- The flashcard pipeline applied to a list of lines:
filter on both markers, map with index, drop cards with an empty side. -/
def parseFlashcardsFromLines (cid : Str) (lines : List Str) : List Flashcard :=
  (((lines.filter flashcardLineOK).enum.map
      (fun p => mkFlashcard cid p.1 p.2)).filter
    (fun card => !card.front.isEmpty && !card.back.isEmpty))

/-- `generateFlashcards`' parsing of the model response:
`flashcardsText.split('\n')` then the line pipeline. -/
def parseFlashcards (cid : Str) (text : Str) : List Flashcard :=
  parseFlashcardsFromLines cid (splitOnStr text ['\n'])

/-! ## Quiz parsing (`generateQuiz` in `StudyDashboard.tsx`) -/

structure QuizQuestion where
  id : Str
  question : Str
  options : List Str
  correctAnswer : Int
  explanation : Str
deriving DecidableEq, Repr

/-- `line.toLowerCase().includes('correct:')` -/
def hasCorrectMarker (l : Str) : Bool := containsSub (lowerStr l) ("correct:".toList)

/-- `line.toLowerCase().includes('explanation:')` -/
def hasExplanationMarker (l : Str) : Bool :=
  containsSub (lowerStr l) ("explanation:".toList)

/-- `block.split('\n').filter(line => line.trim())`: the non-empty lines
of a question block (lines kept untrimmed). -/
def nonEmptyLines (block : Str) : List Str :=
  (splitOnStr block ['\n']).filter (fun l => !(jsTrim l).isEmpty)

/-- One iteration of the quiz parsing loop on block number `i`.
Returns `none` exactly when the block has fewer than 6 non-empty lines. -/
def parseQuizBlock (cid : Str) (i : Nat) (block : Str) : Option QuizQuestion :=
  let lines := nonEmptyLines block
  if 6 ≤ lines.length then
    let correctAnswer : Int :=
      match lines.find? hasCorrectMarker with
      | some l =>
        match firstAD? l with
        | some letter => jsIndexOf ['A', 'B', 'C', 'D'] letter
        | none => 0
      | none => 0
    some
      { id := cid ++ "-quiz-".toList ++ Nat.toDigits 10 i
        question := jsTrim (lines.headD [])
        options := ((lines.drop 1).take 4).map (fun l => jsTrim (stripOptionTag l))
        correctAnswer := correctAnswer
        explanation :=
          match lines.find? hasExplanationMarker with
          | some l => stripExplanationTag l
          | none => [] }
  else none

/-- `generateQuiz`' parsing of the model response: split on `'Q:'`,
drop blocks that are blank after trimming, and run the loop
`for (i = 0; i < blocks.length && i < 5; i++)`. -/
def parseQuiz (cid : Str) (text : Str) : List QuizQuestion :=
  let blocks := (splitOnStr text ("Q:".toList)).filter (fun b => !(jsTrim b).isEmpty)
  ((blocks.take 5).enum).filterMap (fun p => parseQuizBlock cid p.1 p.2)

/-! ## PDF processing (`processPDFFile` in `utils/pdfProcessor.ts`)

The pdf.js interactions are modelled by outcomes: each page either fails
at `getPage` (no page proxy is ever acquired), fails at `getTextContent`
(the proxy was acquired but the `try` block is left before
`page.cleanup()`), or succeeds with a list of text items. Resource
acquisition and release are recorded in an event trace. The async
`Promise.race` against the timeout is modelled by comparing the
processing completion time with the timeout duration. The `onProgress`
callback and the opaque `metadata` object are not modelled. -/

/-- Error codes of `PDFProcessingError`. -/
inductive PDFErrorCode where
  | UNAVAILABLE | INVALID_TYPE | FILE_TOO_LARGE | PASSWORD_PROTECTED
  | INVALID_PDF | LOAD_ERROR | NO_TEXT | TIMEOUT | PROCESSING_ERROR
deriving DecidableEq, Repr

/-- The outcome of pdf.js calls for one page. -/
inductive PageOutcome where
  /-- `pdf.getPage(pageNum)` rejects: no page proxy acquired. -/
  | loadFail
  /-- `page.getTextContent(...)` rejects: proxy acquired, `cleanup` skipped. -/
  | textFail
  /-- both succeed, yielding the `str` fields of the text items. -/
  | ok (items : List Str)
deriving DecidableEq, Repr

/-- Resource events of one extraction run. -/
inductive PDFEvent where
  | pageAcquired (n : Nat)
  | pageCleanup (n : Nat)
  | docDestroyed
deriving DecidableEq, Repr

/-- A loaded pdf.js document: page count, per-page outcomes (1-indexed),
and the metadata title (`metadata?.info?.Title`). -/
structure PDFDoc where
  numPages : Nat
  pages : Nat → PageOutcome
  metaTitle : Option Str

/-- The uploaded `File`: name, MIME type, byte size. -/
structure JSFile where
  fname : Str
  ftype : Str
  size : Nat
deriving DecidableEq, Repr

structure PDFResult where
  text : Str
  pageCount : Nat
  title : Str
deriving DecidableEq, Repr

deriving instance DecidableEq for Except

/-- `/\s+/g → ' '`: collapse every whitespace run into a single space.
The flag records whether the previous character was part of a run. -/
def collapseWSAux : Bool → Str → Str
  | _, [] => []
  | prevWS, c :: rest =>
    if Char.isWhitespace c then
      if prevWS then collapseWSAux true rest else ' ' :: collapseWSAux true rest
    else c :: collapseWSAux false rest

def collapseWS (s : Str) : Str := collapseWSAux false s

/-- JS `Array.prototype.join(' ')`. -/
def joinSpace : List Str → Str
  | [] => []
  | [s] => s
  | s :: rest => s ++ ' ' :: joinSpace rest

/-- The text of one page: filter the truthy trimmed items, join with
spaces, normalize whitespace, trim. -/
def pageText (items : List Str) : Str :=
  jsTrim (collapseWS (joinSpace (items.filter (fun s => !(jsTrim s).isEmpty))))

/-- The body of one iteration of the page loop: the text appended to the
accumulator (with the `'\n\n'` paragraph break when non-empty) and the
resource events of the iteration. `cleanup` is recorded only on the
all-success path, since it is the last statement of the `try` block. -/
def pageStep (out : PageOutcome) (n : Nat) : Str × List PDFEvent :=
  match out with
  | .loadFail => ([], [])
  | .textFail => ([], [PDFEvent.pageAcquired n])
  | .ok items =>
    let t := pageText items
    (if t.isEmpty then [] else t ++ "\n\n".toList,
     [PDFEvent.pageAcquired n, PDFEvent.pageCleanup n])

/-- The page loop over a list of page numbers, accumulating the full text
and the event trace in order. -/
def extractLoop (doc : PDFDoc) : List Nat → Str × List PDFEvent
  | [] => ([], [])
  | n :: rest =>
    ((pageStep (doc.pages n) n).1 ++ (extractLoop doc rest).1,
     (pageStep (doc.pages n) n).2 ++ (extractLoop doc rest).2)

/-- Page numbers `1..n`, the range of `for (pageNum = 1; pageNum <= n; ...)`. -/
def pageRange (n : Nat) : List Nat := (List.range n).map (· + 1)

/-- `metadata?.info?.Title || file.name.replace('.pdf', '')`. -/
def resultTitle (file : JSFile) (doc : PDFDoc) : Str :=
  match doc.metaTitle with
  | some t => if t.isEmpty then replaceFirst file.fname (".pdf".toList) [] else t
  | none => replaceFirst file.fname (".pdf".toList) []

/-- The document-processing body after `getDocument` succeeded:
clamp the loop bound to `min(pdf.numPages, maxPages)`, run the page
loop, destroy the document, fail with `NO_TEXT` on blank text, and
otherwise return the trimmed text with `pageCount: pdf.numPages`.
Returns the result together with the resource-event trace. -/
def processDoc (file : JSFile) (doc : PDFDoc) (maxPages : Nat) :
    Except PDFErrorCode PDFResult × List PDFEvent :=
  let numPages := min doc.numPages maxPages
  let ext := extractLoop doc (pageRange numPages)
  (if (jsTrim ext.1).isEmpty then .error .NO_TEXT
   else
     .ok { text := jsTrim ext.1, pageCount := doc.numPages,
           title := resultTitle file doc },
   ext.2 ++ [PDFEvent.docDestroyed])

/-- How `getDocument` resolved. -/
inductive LoadOutcome where
  | password
  | invalid
  | otherError
  | ok (doc : PDFDoc)

/-- `processPDFFile`: synchronous validation, then the processing promise
raced against the timeout. `procTime` is the completion time of the
processing promise; the timeout wins the race exactly when it fires
strictly before processing completes, and the abandoned promise's
result is discarded. -/
def processPDFFile (file : JSFile) (maxPages timeoutMs : Nat)
    (load : LoadOutcome) (procTime : Nat) : Except PDFErrorCode PDFResult :=
  if file.ftype ≠ "application/pdf".toList then .error .INVALID_TYPE
  else if 50 * 1024 * 1024 < file.size then .error .FILE_TOO_LARGE
  else if timeoutMs < procTime then .error .TIMEOUT
  else
    match load with
    | .password => .error .PASSWORD_PROTECTED
    | .invalid => .error .INVALID_PDF
    | .otherError => .error .LOAD_ERROR
    | .ok doc => (processDoc file doc maxPages).1

/-! ## Content store (`ContentProvider`) -/

inductive ContentType where
  | pdf | youtube | text
deriving DecidableEq, Repr

structure StudyContent where
  id : Str
  title : Str
  ctype : ContentType
  content : Str
  summary : Option Str
  flashcards : Option (List Flashcard)
  quiz : Option (List QuizQuestion)
  createdAt : Nat
deriving DecidableEq, Repr

/-- `Omit<StudyContent, 'id' | 'createdAt'>`, the argument of `addContent`.
The optional generated fields default to absent, as at every call site. -/
structure NewContent where
  title : Str
  ctype : ContentType
  content : Str
  summary : Option Str := none
  flashcards : Option (List Flashcard) := none
  quiz : Option (List QuizQuestion) := none
deriving DecidableEq, Repr

/-- The provider state: the collection and the currently selected item. -/
structure ContentState where
  contents : List StudyContent
  currentContent : Option StudyContent
deriving DecidableEq, Repr

/-- The item built by `addContent`: `id` is `Date.now().toString()` and
`createdAt` the same instant, modelled by the `now` parameter. -/
def newStudyContent (now : Nat) (c : NewContent) : StudyContent :=
  { id := Nat.toDigits 10 now, title := c.title, ctype := c.ctype,
    content := c.content, summary := c.summary, flashcards := c.flashcards,
    quiz := c.quiz, createdAt := now }

/-- `addContent`: append the new item and select it. -/
def addContent (now : Nat) (c : NewContent) (s : ContentState) : ContentState :=
  { contents := s.contents ++ [newStudyContent now c],
    currentContent := some (newStudyContent now c) }

/-- `Partial<StudyContent>`, the `updates` argument of `updateContent`:
each field is either absent or supplies a replacement value. -/
structure ContentPatch where
  id : Option Str := none
  title : Option Str := none
  ctype : Option ContentType := none
  content : Option Str := none
  summary : Option Str := none
  flashcards : Option (List Flashcard) := none
  quiz : Option (List QuizQuestion) := none
  createdAt : Option Nat := none
deriving DecidableEq, Repr

/-- The spread `{ ...content, ...updates }`. -/
def applyPatch (p : ContentPatch) (c : StudyContent) : StudyContent :=
  { id := p.id.getD c.id, title := p.title.getD c.title,
    ctype := p.ctype.getD c.ctype, content := p.content.getD c.content,
    summary := match p.summary with | some v => some v | none => c.summary,
    flashcards := match p.flashcards with | some v => some v | none => c.flashcards,
    quiz := match p.quiz with | some v => some v | none => c.quiz,
    createdAt := p.createdAt.getD c.createdAt }

/-- `updateContent(id, updates)`: merge into every matching stored item,
and into the current item when its id matches. -/
def updateContent (id : Str) (p : ContentPatch) (s : ContentState) : ContentState :=
  { contents := s.contents.map (fun c => if c.id = id then applyPatch p c else c),
    currentContent :=
      match s.currentContent with
      | some cur => if cur.id = id then some (applyPatch p cur) else some cur
      | none => none }

/-- `deleteContent(id)`: drop matching items; clear the selection when
the current item's id matches. -/
def deleteContent (id : Str) (s : ContentState) : ContentState :=
  { contents := s.contents.filter (fun c => c.id ≠ id),
    currentContent :=
      match s.currentContent with
      | some cur => if cur.id = id then none else some cur
      | none => none }

/-- `setCurrentContent`. -/
def setCurrentContent (c : Option StudyContent) (s : ContentState) : ContentState :=
  { s with currentContent := c }

/-- The update passed by one generation operation in `StudyDashboard.tsx`:
exactly one of `{ summary }`, `{ flashcards }`, `{ quiz }`. -/
inductive GenUpdate where
  | summary (v : Str)
  | flashcards (v : List Flashcard)
  | quiz (v : List QuizQuestion)

/-- The patch actually passed to `updateContent` by the generation call. -/
def GenUpdate.toPatch : GenUpdate → ContentPatch
  | .summary v => { summary := some v }
  | .flashcards v => { flashcards := some v }
  | .quiz v => { quiz := some v }

/-- Replacement of exactly one generated field, the intended effect. -/
def GenUpdate.apply : GenUpdate → StudyContent → StudyContent
  | .summary v, c => { c with summary := some v }
  | .flashcards v, c => { c with flashcards := some v }
  | .quiz v, c => { c with quiz := some v }

/-! ## Ollama client (`OllamaProvider.loadModels`) -/

structure OllamaModel where
  name : Str
  size : Str
  modified_at : Str
deriving DecidableEq, Repr

structure OllamaState where
  models : List OllamaModel
  selectedModel : Str
  isConnected : Bool
  isLoading : Bool
deriving DecidableEq, Repr

/-- How the `fetch` of `GET {ollamaUrl}/api/tags` resolved.
`ok` carries `data.models`, which the JSON may omit. -/
inductive FetchOutcome where
  /-- `response.ok` with the parsed body's `models` field. -/
  | ok (models? : Option (List OllamaModel))
  /-- response received but `response.ok` is false. -/
  | httpError
  /-- `fetch` rejected: network failure, CORS, or the abort timeout. -/
  | netError
deriving DecidableEq, Repr

/-- `loadModels`: final state after the call returns. On the deployed
short-circuit the list is cleared; on success the list is replaced by
`data.models || []` (and a default model picked if none is selected);
on a non-ok response only the connection flag is dropped; on a thrown
error the flag is dropped and the list cleared. `isLoading` is reset
in the `finally`. -/
def loadModels (isDeployed : Bool) (outcome : FetchOutcome) (s : OllamaState) :
    OllamaState :=
  if isDeployed then
    { s with isLoading := false, isConnected := false, models := [] }
  else
    match outcome with
    | .ok ms? =>
      let ms := ms?.getD []
      let sel :=
        match ms?, s.selectedModel with
        | some (m :: _), [] => m.name
        | _, _ => s.selectedModel
      { models := ms, selectedModel := sel, isConnected := true, isLoading := false }
    | .httpError => { s with isConnected := false, isLoading := false }
    | .netError => { s with isConnected := false, models := [], isLoading := false }

/-! ## Concrete values used by examples, witnesses and counterexamples -/

def sampleItem : StudyContent :=
  { id := ['1'], title := "Doc".toList, ctype := .text,
    content := "body".toList, summary := none, flashcards := none,
    quiz := none, createdAt := 1 }

def sampleState : ContentState :=
  { contents := [sampleItem], currentContent := some sampleItem }

def pdfFile1 : JSFile :=
  { fname := "doc.pdf".toList, ftype := "application/pdf".toList, size := 100 }

def pdfDoc5 : PDFDoc :=
  { numPages := 5, pages := fun _ => .ok ["hello".toList], metaTitle := none }

def pdfRes5 : PDFResult :=
  { text := "hello\n\nhello\n\nhello".toList, pageCount := 5, title := "doc".toList }

def pdfDocLeak : PDFDoc :=
  { numPages := 1, pages := fun _ => .textFail, metaTitle := none }

def ollamaModel1 : OllamaModel :=
  { name := "llama2".toList, size := "3.8GB".toList, modified_at := "2024".toList }

def ollamaState1 : OllamaState :=
  { models := [ollamaModel1], selectedModel := "llama2".toList,
    isConnected := true, isLoading := false }

def flashDemo : Str := "Q: What is 2+2? | A: 4\nQ: Capital of France? | A: Paris".toList

def quizBlockDemo : Str :=
  " What is X?\nA) one\nB) two\nC) three\nD) four\nCorrect: C\nExplanation: because".toList

def quizBlockB : Str :=
  " Is it?\nA) w\nB) x\nC) y\nD) z\nCorrect: B\nExplanation: e".toList

def quizSkipDemo : Str :=
  "Q: short\nQ: Full question\nA) a1\nB) b2\nC) c3\nD) d4\nCorrect: B\nExplanation: why".toList

/-- Zero-based index of an answer letter as the spec words it
(`A=0, B=1, C=2, D=3`), `-1` on any other character. -/
def specLetterIndex (c : Char) : Int :=
  if c = 'A' then 0 else if c = 'B' then 1 else if c = 'C' then 2
  else if c = 'D' then 3 else -1

/-! ## Sanity examples -/

example : parseFlashcards ['1'] flashDemo =
    [{ id := "1-flashcard-0".toList, front := "What is 2+2?".toList,
       back := "4".toList, difficulty := "medium".toList },
     { id := "1-flashcard-1".toList, front := "Capital of France?".toList,
       back := "Paris".toList, difficulty := "medium".toList }] := by decide

example : parseQuiz ['1'] ("Q:".toList ++ quizBlockDemo) =
    [{ id := "1-quiz-0".toList, question := "What is X?".toList,
       options := ["one".toList, "two".toList, "three".toList, "four".toList],
       correctAnswer := 2, explanation := "because".toList }] := by decide

/-! ## Shared helper lemmas -/

/-- `['A','B','C','D'].indexOf` agrees with the spec's letter mapping on
every character. -/
theorem jsIndexOf_ABCD (c : Char) :
    jsIndexOf ['A', 'B', 'C', 'D'] c = specLetterIndex c := by
  by_cases h1 : c = 'A'
  · subst h1; decide
  by_cases h2 : c = 'B'
  · subst h2; decide
  by_cases h3 : c = 'C'
  · subst h3; decide
  by_cases h4 : c = 'D'
  · subst h4; decide
  have k1 : ¬('A' = c) := fun h => h1 h.symm
  have k2 : ¬('B' = c) := fun h => h2 h.symm
  have k3 : ¬('C' = c) := fun h => h3 h.symm
  have k4 : ¬('D' = c) := fun h => h4 h.symm
  simp only [jsIndexOf, jsIndexOfFrom, specLetterIndex,
    if_neg h1, if_neg h2, if_neg h3, if_neg h4,
    if_neg k1, if_neg k2, if_neg k3, if_neg k4]

/-! ## C7: store currency invariant -/

/-- C7: the content store keeps at most one current item; `addContent`
appends the new item and makes it current; `deleteContent` on the
current item's id clears the selection, and on any other id leaves the
selection unchanged. -/
theorem content_store_currency_invariant :
    (∀ (s : ContentState) (a b : StudyContent),
        s.currentContent = some a → s.currentContent = some b → a = b) ∧
    (∀ (now : Nat) (c : NewContent) (s : ContentState),
        (addContent now c s).contents = s.contents ++ [newStudyContent now c] ∧
        (addContent now c s).currentContent = some (newStudyContent now c)) ∧
    (∀ (id : Str) (s : ContentState) (cur : StudyContent),
        s.currentContent = some cur → cur.id = id →
        (deleteContent id s).currentContent = none) ∧
    (∀ (id : Str) (s : ContentState) (cur : StudyContent),
        s.currentContent = some cur → cur.id ≠ id →
        (deleteContent id s).currentContent = s.currentContent) ∧
    (∀ (id : Str) (s : ContentState),
        s.currentContent = none → (deleteContent id s).currentContent = none) := by
  refine ⟨?_, ?_, ?_, ?_, ?_⟩
  · intro s a b ha hb
    rw [ha] at hb
    exact (Option.some.injEq _ _ ▸ hb)
  · intro now c s
    exact ⟨rfl, rfl⟩
  · intro id s cur h1 h2
    simp [deleteContent, h1, h2]
  · intro id s cur h1 h2
    simp [deleteContent, h1, h2]
  · intro id s h1
    simp [deleteContent, h1]

/-- C7 witness at a concrete one-item store. -/
theorem content_store_currency_invariant_witness :
    (deleteContent ['1'] sampleState).currentContent = none ∧
    (deleteContent ['2'] sampleState).currentContent = sampleState.currentContent :=
  ⟨content_store_currency_invariant.2.2.1 ['1'] sampleState sampleItem rfl rfl,
   content_store_currency_invariant.2.2.2.1 ['2'] sampleState sampleItem rfl (by decide)⟩

/-! ## C8: generation replaces exactly one field -/

/-- `applyPatch` on a single-field generation patch is the replacement of
exactly that field. -/
theorem applyPatch_genUpdate (u : GenUpdate) (c : StudyContent) :
    applyPatch u.toPatch c = u.apply c := by
  cases u <;> rfl

/-- C8: a generation call's `updateContent` maps the collection with a
per-item conditional, leaves every item whose id differs from the target
untouched (position by position), and on the affected item replaces only
the designated generated field, preserving all other fields. -/
theorem generation_replaces_exactly_one_field (u : GenUpdate) (tid : Str)
    (s : ContentState) :
    (updateContent tid u.toPatch s).contents =
      s.contents.map (fun c => if c.id = tid then u.apply c else c) ∧
    (∀ (i : Nat) (c : StudyContent), s.contents.get? i = some c → c.id ≠ tid →
        (updateContent tid u.toPatch s).contents.get? i = some c) ∧
    (∀ c : StudyContent,
        (u.apply c).id = c.id ∧ (u.apply c).title = c.title ∧
        (u.apply c).ctype = c.ctype ∧ (u.apply c).content = c.content ∧
        (u.apply c).createdAt = c.createdAt ∧
        (match u with
         | .summary v => (u.apply c).summary = some v ∧
             (u.apply c).flashcards = c.flashcards ∧ (u.apply c).quiz = c.quiz
         | .flashcards v => (u.apply c).flashcards = some v ∧
             (u.apply c).summary = c.summary ∧ (u.apply c).quiz = c.quiz
         | .quiz v => (u.apply c).quiz = some v ∧
             (u.apply c).summary = c.summary ∧
             (u.apply c).flashcards = c.flashcards)) := by
  have hmap : (updateContent tid u.toPatch s).contents =
      s.contents.map (fun c => if c.id = tid then u.apply c else c) := by
    unfold updateContent
    exact List.map_congr_left (fun c _ => by rw [applyPatch_genUpdate])
  refine ⟨hmap, ?_, ?_⟩
  · intro i c hc hid
    rw [hmap]
    rw [List.get?_eq_getElem?] at hc ⊢
    rw [List.getElem?_map, hc]
    simp [hid]
  · intro c
    cases u <;> exact ⟨rfl, rfl, rfl, rfl, rfl, rfl, rfl, rfl⟩

/-- C8 witness: a summary generation on a concrete one-item store. -/
theorem generation_replaces_exactly_one_field_witness :
    sampleState.contents.get? 0 = some sampleItem ∧
    (updateContent ['9'] (GenUpdate.summary ['s']).toPatch
        sampleState).contents.get? 0 = some sampleItem :=
  ⟨rfl, (generation_replaces_exactly_one_field (GenUpdate.summary ['s']) ['9']
      sampleState).2.1 0 sampleItem rfl (by decide)⟩

/-! ## C9: loadModels failure behaviour -/

/-- C9 counterexample: after a non-success HTTP response, `loadModels`
drops the connection flag but keeps the previously loaded model list:
the state is disconnected yet the model list is not empty. -/
theorem loadModels_http_error_keeps_models :
    (loadModels false .httpError ollamaState1).isConnected = false ∧
    (loadModels false .httpError ollamaState1).models ≠ [] := by decide

/-- C9 (amended): a thrown fetch error (network failure or abort timeout)
leaves the client disconnected with an empty model list, while a non-ok
HTTP response leaves it disconnected with the model list unchanged. -/
theorem loadModels_failure_states (s : OllamaState) :
    ((loadModels false .netError s).isConnected = false ∧
     (loadModels false .netError s).models = []) ∧
    ((loadModels false .httpError s).isConnected = false ∧
     (loadModels false .httpError s).models = s.models) :=
  ⟨⟨rfl, rfl⟩, ⟨rfl, rfl⟩⟩

/-! ## C1: returned pageCount -/

/-- C1 counterexample: a successful ingestion of a 5-page document with
`maxPages = 3` returns `pageCount = 5`, the document's full page count,
not `min(actualPages, maxPages) = 3`. -/
theorem pdf_pageCount_counterexample :
    processPDFFile pdfFile1 3 60000 (.ok pdfDoc5) 0 = .ok pdfRes5 ∧
    pdfRes5.pageCount ≠ min pdfDoc5.numPages 3 := by decide

/-- C1 (amended): a successful PDF ingestion returns `pageCount` equal to
the document's full page count (`pdf.numPages`) even when it exceeds
`maxPages`; only the text extraction is clamped — the returned text is
accumulated over pages `1..min(actualPages, maxPages)`. -/
theorem pdf_pageCount_full_and_clamped_text (file : JSFile)
    (maxPages timeoutMs : Nat) (doc : PDFDoc) (procTime : Nat) (r : PDFResult)
    (h : processPDFFile file maxPages timeoutMs (.ok doc) procTime = .ok r) :
    r.pageCount = doc.numPages ∧
    r.text = jsTrim (extractLoop doc (pageRange (min doc.numPages maxPages))).1 := by
  unfold processPDFFile at h
  split at h
  · exact absurd h (by simp)
  split at h
  · exact absurd h (by simp)
  split at h
  · exact absurd h (by simp)
  simp only [processDoc] at h
  split at h
  · exact absurd h (by simp)
  rw [Except.ok.injEq] at h
  rw [← h]
  exact ⟨rfl, rfl⟩

/-- C1 witness: the amended theorem applied to the concrete 5-page run. -/
theorem pdf_pageCount_full_and_clamped_text_witness :
    processPDFFile pdfFile1 3 60000 (.ok pdfDoc5) 0 = .ok pdfRes5 ∧
    (pdfRes5.pageCount = pdfDoc5.numPages ∧
     pdfRes5.text =
       jsTrim (extractLoop pdfDoc5 (pageRange (min pdfDoc5.numPages 3))).1) :=
  ⟨by decide,
   pdf_pageCount_full_and_clamped_text pdfFile1 3 60000 pdfDoc5 0 pdfRes5 (by decide)⟩

/-! ## C2: timeout race -/

/-- C2: when the timeout fires strictly before the processing promise
completes, a validated extraction resolves with the `TIMEOUT` error and
can never resolve successfully with the partial text accumulated so
far. -/
theorem pdf_timeout_no_partial_success (file : JSFile) (maxPages timeoutMs : Nat)
    (load : LoadOutcome) (procTime : Nat)
    (hty : file.ftype = "application/pdf".toList)
    (hsz : file.size ≤ 50 * 1024 * 1024)
    (ht : timeoutMs < procTime) :
    processPDFFile file maxPages timeoutMs load procTime = .error .TIMEOUT ∧
    ∀ r : PDFResult, processPDFFile file maxPages timeoutMs load procTime ≠ .ok r := by
  have hres : processPDFFile file maxPages timeoutMs load procTime = .error .TIMEOUT := by
    unfold processPDFFile
    rw [if_neg (by simp [hty]), if_neg (by omega), if_pos ht]
  exact ⟨hres, fun r hok => by rw [hres] at hok; exact absurd hok (by simp)⟩

/-- C2 witness: a 60s timeout against a processing promise that would
complete at 60001 ms. -/
theorem pdf_timeout_no_partial_success_witness :
    pdfFile1.ftype = "application/pdf".toList ∧
    processPDFFile pdfFile1 100 60000 (.ok pdfDoc5) 60001 = .error .TIMEOUT :=
  ⟨rfl, (pdf_timeout_no_partial_success pdfFile1 100 60000 (.ok pdfDoc5) 60001
      rfl (by decide) (by decide)).1⟩

/-! ## C10: resource release -/

/-- C10 counterexample: a run over a document with one page whose
`getTextContent` rejects acquires the page but never cleans it up —
`page.cleanup()` is the last statement of the per-page `try` block and
is skipped when the page fails. -/
theorem page_cleanup_skipped_counterexample :
    PDFEvent.pageAcquired 1 ∈ (processDoc pdfFile1 pdfDocLeak 100).2 ∧
    PDFEvent.pageCleanup 1 ∉ (processDoc pdfFile1 pdfDocLeak 100).2 := by decide

/-- Membership in the page loop's event trace. -/
theorem mem_extractLoop_events (doc : PDFDoc) (e : PDFEvent) (ns : List Nat) :
    e ∈ (extractLoop doc ns).2 ↔ ∃ k ∈ ns, e ∈ (pageStep (doc.pages k) k).2 := by
  induction ns with
  | nil => simp [extractLoop]
  | cons n rest ih => simp [extractLoop, ih]

/-- `pageCleanup` appears in one page iteration exactly when the whole
iteration succeeded. -/
theorem cleanup_mem_pageStep (out : PageOutcome) (j k : Nat) :
    PDFEvent.pageCleanup k ∈ (pageStep out j).2 ↔
      (k = j ∧ ∃ items, out = .ok items) := by
  cases out <;> simp [pageStep]

/-- `pageAcquired` appears in one page iteration exactly when `getPage`
succeeded. -/
theorem acquired_mem_pageStep (out : PageOutcome) (j k : Nat) :
    PDFEvent.pageAcquired k ∈ (pageStep out j).2 ↔
      (k = j ∧ out ≠ .loadFail) := by
  cases out <;> simp [pageStep]

/-- C10 (amended): for every extraction run, the whole-document release
(`pdf.destroy()`) always occurs, a page is acquired exactly when it is in
the processed range and its `getPage` succeeded, and a page is cleaned up
exactly when it is in the processed range and both its `getPage` and its
`getTextContent` succeeded — a page whose extraction fails after
acquisition is never released. -/
theorem pdf_resource_release_characterization (file : JSFile) (doc : PDFDoc)
    (maxPages : Nat) :
    PDFEvent.docDestroyed ∈ (processDoc file doc maxPages).2 ∧
    (∀ k : Nat, PDFEvent.pageCleanup k ∈ (processDoc file doc maxPages).2 ↔
      (k ∈ pageRange (min doc.numPages maxPages) ∧
       ∃ items, doc.pages k = .ok items)) ∧
    (∀ k : Nat, PDFEvent.pageAcquired k ∈ (processDoc file doc maxPages).2 ↔
      (k ∈ pageRange (min doc.numPages maxPages) ∧ doc.pages k ≠ .loadFail)) := by
  have hevs : (processDoc file doc maxPages).2 =
      (extractLoop doc (pageRange (min doc.numPages maxPages))).2 ++
        [PDFEvent.docDestroyed] := by
    simp only [processDoc]
  refine ⟨by rw [hevs]; simp, ?_, ?_⟩
  · intro k
    rw [hevs, List.mem_append, mem_extractLoop_events]
    constructor
    · rintro (⟨j, hj, hmem⟩ | hmem)
      · rcases (cleanup_mem_pageStep _ j k).mp hmem with ⟨rfl, items, hout⟩
        exact ⟨hj, items, hout⟩
      · simp at hmem
    · rintro ⟨hk, items, hout⟩
      exact Or.inl ⟨k, hk, (cleanup_mem_pageStep _ k k).mpr ⟨rfl, items, hout⟩⟩
  · intro k
    rw [hevs, List.mem_append, mem_extractLoop_events]
    constructor
    · rintro (⟨j, hj, hmem⟩ | hmem)
      · rcases (acquired_mem_pageStep _ j k).mp hmem with ⟨rfl, hout⟩
        exact ⟨hj, hout⟩
      · simp at hmem
    · rintro ⟨hk, hout⟩
      exact Or.inl ⟨k, hk, (acquired_mem_pageStep _ k k).mpr ⟨rfl, hout⟩⟩

/-! ## C3: quiz correct-answer rule -/

/-- C3: a qualifying quiz block (at least 6 non-empty lines) always
yields a question, whose `correctAnswer` is the `A=0..D=3` index of the
first `A`–`D` letter of the first line containing the case-insensitive
`correct:` marker, and `0` when no such line exists or the line holds no
such letter. -/
theorem quiz_correct_answer_rule (cid : Str) (i : Nat) (block : Str)
    (h : 6 ≤ (nonEmptyLines block).length) :
    ∃ q, parseQuizBlock cid i block = some q ∧
      q.correctAnswer =
        (match (nonEmptyLines block).find? hasCorrectMarker with
         | some l =>
           (match firstAD? l with
            | some c => specLetterIndex c
            | none => 0)
         | none => 0) := by
  unfold parseQuizBlock
  rw [if_pos h]
  refine ⟨_, rfl, ?_⟩
  dsimp only
  cases hfind : (nonEmptyLines block).find? hasCorrectMarker with
  | none => rfl
  | some l =>
    dsimp only
    cases hfa : firstAD? l with
    | none => rfl
    | some c => exact jsIndexOf_ABCD c

/-- C3 witness: the spec's example block, whose `Correct: C` line yields
`correctAnswer = 2`. -/
theorem quiz_correct_answer_rule_witness :
    6 ≤ (nonEmptyLines quizBlockDemo).length ∧
    ∃ q, parseQuizBlock ['1'] 0 quizBlockDemo = some q ∧
      q.correctAnswer =
        (match (nonEmptyLines quizBlockDemo).find? hasCorrectMarker with
         | some l =>
           (match firstAD? l with
            | some c => specLetterIndex c
            | none => 0)
         | none => 0) :=
  ⟨by decide, quiz_correct_answer_rule ['1'] 0 quizBlockDemo (by decide)⟩

/-! ## C4: the capital C of "Correct" shadows the intended letter -/

/-- C4: when the first correct-marker line of a qualifying block is
exactly `"Correct: X"` with `X` one of `A`, `B`, `D` (the format the
generation prompt requests), the parsed `correctAnswer` is always `2`:
the first `A`–`D` letter scanned is the capital `C` of the word
`Correct` itself, so the intended letter is never reached. -/
theorem quiz_correct_marker_letter_shadowed (cid : Str) (i : Nat) (block : Str)
    (x : Char) (_hx : x = 'A' ∨ x = 'B' ∨ x = 'D')
    (h6 : 6 ≤ (nonEmptyLines block).length)
    (hfind : (nonEmptyLines block).find? hasCorrectMarker =
      some ("Correct: ".toList ++ [x])) :
    ∃ q, parseQuizBlock cid i block = some q ∧ q.correctAnswer = 2 := by
  unfold parseQuizBlock
  rw [if_pos h6]
  refine ⟨_, rfl, ?_⟩
  dsimp only
  rw [hfind]
  have hfa : firstAD? ("Correct: ".toList ++ [x]) = some 'C' := rfl
  dsimp only
  rw [hfa]
  decide

/-- C4 witness: a block whose marker line is `"Correct: B"` still parses
with `correctAnswer = 2`. -/
theorem quiz_correct_marker_letter_shadowed_witness :
    (nonEmptyLines quizBlockB).find? hasCorrectMarker =
      some ("Correct: ".toList ++ ['B']) ∧
    ∃ q, parseQuizBlock ['1'] 0 quizBlockB = some q ∧ q.correctAnswer = 2 :=
  ⟨by decide, quiz_correct_marker_letter_shadowed ['1'] 0 quizBlockB 'B'
    (Or.inr (Or.inl rfl)) (by decide) (by decide)⟩

/-! ## C5: flashcard parsing -/

/-- C5: the spec's two-line example yields exactly its two flashcards in
input order; every produced flashcard has a non-empty front and back
(a line whose parsed front or back is empty contributes nothing); and
inserting a line that contains `Q:` but not `A:` anywhere into the input
lines leaves the parsed flashcards unchanged — such a line produces no
flashcard. -/
theorem flashcards_parsing_spec :
    (parseFlashcards ['1'] flashDemo =
      [{ id := "1-flashcard-0".toList, front := "What is 2+2?".toList,
         back := "4".toList, difficulty := "medium".toList },
       { id := "1-flashcard-1".toList, front := "Capital of France?".toList,
         back := "Paris".toList, difficulty := "medium".toList }]) ∧
    (∀ (cid : Str) (text : Str) (card : Flashcard),
        card ∈ parseFlashcards cid text → card.front ≠ [] ∧ card.back ≠ []) ∧
    (∀ (cid : Str) (pre post : List Str) (line : Str),
        containsSub line ("Q:".toList) = true →
        containsSub line ("A:".toList) = false →
        parseFlashcardsFromLines cid (pre ++ line :: post) =
          parseFlashcardsFromLines cid (pre ++ post)) := by
  refine ⟨by decide, ?_, ?_⟩
  · intro cid text card h
    unfold parseFlashcards parseFlashcardsFromLines at h
    have h2 := (List.mem_filter.mp h).2
    simp only [Bool.and_eq_true, Bool.not_eq_true', List.isEmpty_eq_false] at h2
    exact h2
  · intro cid pre post line _ ha
    have hline : flashcardLineOK line = false := by
      unfold flashcardLineOK
      rw [ha, Bool.and_false]
    unfold parseFlashcardsFromLines
    rw [List.filter_append, List.filter_append, List.filter_cons, hline]
    simp

/-- C5 witness: a `Q:`-only line inserted before a well-formed line is
dropped without affecting the parse. -/
theorem flashcards_parsing_spec_witness :
    containsSub ("Q: no answer here".toList) ("A:".toList) = false ∧
    parseFlashcardsFromLines ['1']
        (["Q: no answer here".toList] ++ ["Q: ok? | A: yes".toList]) =
      parseFlashcardsFromLines ['1'] ["Q: ok? | A: yes".toList] :=
  ⟨by decide, flashcards_parsing_spec.2.2 ['1'] [] ["Q: ok? | A: yes".toList]
    ("Q: no answer here".toList) (by decide) (by decide)⟩

/-! ## C6: at most five questions, short blocks skipped -/

/-- C6: quiz parsing never returns more than 5 questions; a block with
fewer than 6 non-empty lines parses to `none` (no partial question);
and in the concrete two-block input whose first block is short, the
second block is still parsed. -/
theorem quiz_parse_at_most_five_and_skip :
    (∀ (cid : Str) (text : Str), (parseQuiz cid text).length ≤ 5) ∧
    (∀ (cid : Str) (i : Nat) (block : Str),
        (nonEmptyLines block).length < 6 → parseQuizBlock cid i block = none) ∧
    parseQuiz ['1'] quizSkipDemo =
      [{ id := "1-quiz-1".toList, question := "Full question".toList,
         options := ["a1".toList, "b2".toList, "c3".toList, "d4".toList],
         correctAnswer := 2, explanation := "why".toList }] := by
  refine ⟨?_, ?_, by decide⟩
  · intro cid text
    unfold parseQuiz
    refine le_trans (List.length_filterMap_le _ _) ?_
    rw [List.enum_length]
    exact le_trans (List.length_take_le _ _) le_rfl
  · intro cid i block hlen
    unfold parseQuizBlock
    rw [if_neg (by omega)]

/-- C6 witness: a one-line block is skipped and a long response still
yields at most 5 questions. -/
theorem quiz_parse_at_most_five_and_skip_witness :
    (nonEmptyLines (" short".toList)).length < 6 ∧
    parseQuizBlock ['1'] 0 (" short".toList) = none :=
  ⟨by decide,
   quiz_parse_at_most_five_and_skip.2.1 ['1'] 0 (" short".toList) (by decide)⟩
